import Mathlib

/-!
Shallow embedding of the CyberGuardLog detection-and-notification pipeline:
the condition evaluator, rule engine, heuristic classifier, detection
pipeline orchestration (server/storage-db.ts), the log-ingestion handler
(server/routes.ts, POST /api/logs) and the websocket fanout
(server/websocket.ts), together with theorems settling the spec claims.
-/

/-- JavaScript falsiness on an optional string: `x || undefined` / `x || null`
maps both `undefined`/`null` and the empty string to "absent". -/
def jsFalsyToNone : Option String → Option String
  | none => none
  | some s => if s = "" then none else some s

/-- JavaScript `o || dflt` on an optional string: `null`, `undefined` and `""`
fall back to the default. -/
def jsOrElse (o : Option String) (dflt : String) : String :=
  match o with
  | none => dflt
  | some s => if s = "" then dflt else s

/-- A stored log event (table `logs` in shared/schema.ts); fields not read by
the detection pipeline (timestamps) are omitted, `ipAddress` and `metadata`
are nullable. -/
structure Log where
  id : String
  level : String
  source : String
  ipAddress : Option String
  eventType : String
  message : String
  metadata : Option String
deriving Repr, DecidableEq

/-- The fields passed to `createAlert` by the pipeline (an `InsertAlert` in
shared/schema.ts). -/
structure InsertAlert where
  severity : String
  title : String
  description : String
  source : String
  ipAddress : Option String
  status : String
deriving Repr, DecidableEq

/-- A persisted alert row, with the mutable lifecycle fields. -/
structure Alert where
  id : String
  severity : String
  title : String
  description : String
  source : String
  ipAddress : Option String
  status : String
  acknowledgedAt : Option Nat
  resolvedAt : Option Nat
deriving Repr, DecidableEq

/-- The `.set` clause of `DatabaseStorage.acknowledgeAlert`: unconditionally
writes status "acknowledged" and the acknowledgement time. -/
def acknowledgeAlertSet (a : Alert) (now : Nat) : Alert :=
  { a with status := "acknowledged", acknowledgedAt := some now }

/-- The `.set` clause of `DatabaseStorage.resolveAlert`: unconditionally
writes status "resolved" and the resolution time. -/
def resolveAlertSet (a : Alert) (now : Nat) : Alert :=
  { a with status := "resolved", resolvedAt := some now }

/-- Position of a status along the documented lifecycle
active → acknowledged → resolved. -/
def statusRank : String → Nat
  | "acknowledged" => 1
  | "resolved" => 2
  | _ => 0

/-- A rule condition's comparison value: the stored JSON allows a string or an
array of strings. -/
inductive CondValue where
  | str (s : String)
  | arr (l : List String)
deriving Repr, DecidableEq

/-- A single parsed rule condition (`RuleCondition` in shared/schema.ts).
The `type` and `operator` fields are open strings: anything that survives
JSON parsing can appear here. -/
structure RuleCondition where
  type : String
  operator : String
  value : CondValue
deriving Repr, DecidableEq

/-- `RuleEvaluationContext`: the flattened view of a log event used for
condition matching. -/
structure RuleEvaluationContext where
  ip : Option String
  eventType : String
  severity : String
  message : String
  source : String
deriving Repr, DecidableEq

/-- A stored alerting rule (table `alerting_rules`); `condition` is the raw
JSON string. -/
structure AlertingRule where
  id : String
  name : String
  description : Option String
  condition : String
  severity : String
  enabled : Bool
deriving Repr, DecidableEq

/-- JavaScript `String(condValue)`: an array stringifies to the comma-join of
its elements. -/
def condValueToString : CondValue → String
  | CondValue.str s => s
  | CondValue.arr l => String.intercalate "," l

/-- Substring membership on character lists, `hay.includes(needle)`. -/
def listIncludes (needle : List Char) : List Char → Bool
  | [] => needle.isEmpty
  | c :: rest => needle.isPrefixOf (c :: rest) || listIncludes needle rest

/-- JavaScript `hay.includes(needle)` (case-sensitive substring test). -/
def strIncludes (hay needle : String) : Bool :=
  listIncludes needle.toList hay.toList

/-- The inner `getValue` closure of `DatabaseStorage.evaluateCondition`:
selects the context field named by the condition's `type`, `undefined` for
any unrecognized selector. -/
def getValue (cond : RuleCondition) (context : RuleEvaluationContext) : Option String :=
  if cond.type = "ip" then context.ip
  else if cond.type = "eventType" then some context.eventType
  else if cond.type = "severity" then some context.severity
  else if cond.type = "pattern" then some context.message
  else if cond.type = "source" then some context.source
  else none

/-- `DatabaseStorage.evaluateCondition`. The regular-expression library is
external (`new RegExp(pat, "i")`), so it enters as the parameter `re`:
`re pat = none` models a pattern whose compilation throws (the source
catches that and returns false), `re pat = some test` the compiled
case-insensitive test. `value === cond.value` with an array operand is
strict-equality false; the `if (!value)` guard makes `undefined` and the
empty string fail every operator. -/
def evaluateCondition (re : String → Option (String → Bool))
    (cond : RuleCondition) (context : RuleEvaluationContext) : Bool :=
  match getValue cond context with
  | none => false
  | some value =>
    if value = "" then false
    else if cond.operator = "equals" then
      match cond.value with
      | CondValue.str s => value = s
      | CondValue.arr _ => false
    else if cond.operator = "contains" then
      strIncludes value (condValueToString cond.value)
    else if cond.operator = "matches" then
      match re (condValueToString cond.value) with
      | none => false
      | some test => test value
    else if cond.operator = "in" then
      match cond.value with
      | CondValue.arr l => l.contains value
      | CondValue.str _ => false
    else false

/-- `DatabaseStorage.evaluateConditions`: JavaScript `conditions.every(...)`,
which is vacuously true on the empty list. -/
def evaluateConditions (re : String → Option (String → Bool))
    (conditions : List RuleCondition) (context : RuleEvaluationContext) : Bool :=
  conditions.all (fun cond => evaluateCondition re cond context)

/-- The context built from a log inside `evaluateRulesForLog`
(`ip: log.ipAddress || undefined`). -/
def contextOfLog (log : Log) : RuleEvaluationContext :=
  { ip := jsFalsyToNone log.ipAddress
    eventType := log.eventType
    severity := log.level
    message := log.message
    source := log.source }

/-- The alert fields passed to `createAlert` when a custom rule matches in
`evaluateRulesForLog` (`description: rule.description || rule.name`). -/
def ruleAlert (rule : AlertingRule) (log : Log) : InsertAlert :=
  { severity := rule.severity
    title := rule.name
    description := "Custom rule triggered: " ++ jsOrElse rule.description rule.name
    source := log.source
    ipAddress := jsFalsyToNone log.ipAddress
    status := "active" }

/-- Case-folded characters of a string: the detector regexes carry the `i`
flag and their literals are lower-case. -/
def lowerChars (s : String) : List Char :=
  s.toList.map Char.toLower

/-- Drops the input up to and including the first occurrence of `needle`;
`none` when `needle` does not occur. -/
def dropAfterFirst (needle : List Char) : List Char → Option (List Char)
  | [] => if needle.isEmpty then some [] else none
  | c :: rest =>
    if needle.isPrefixOf (c :: rest) then some ((c :: rest).drop needle.length)
    else dropAfterFirst needle rest

/-- Tests one regex alternative of the form `p₁.*p₂.*…*pₙ` (literal parts in
order): each part must occur after the end of the previous one. -/
def seqTest : List String → List Char → Bool
  | [], _ => true
  | p :: ps, hay =>
    match dropAfterFirst (lowerChars p) hay with
    | none => false
    | some rest => seqTest ps rest

/-- A detector regex: an alternation of sequences of literal parts, exactly
the shape of the seven hard-coded patterns in `detectAnomalies`. -/
structure Pattern where
  alts : List (List String)
deriving Repr, DecidableEq

/-- Case-insensitive test of a detector regex against a string
(`pattern.test(s)` with the `i` flag). -/
def Pattern.test (p : Pattern) (s : String) : Bool :=
  p.alts.any (fun alt => seqTest alt (lowerChars s))

/-- The ordered (pattern, severity) detector list hard-coded in
`DatabaseStorage.detectAnomalies`. -/
def patterns : List (Pattern × String) :=
  [ (⟨[["failed", "login"], ["authentication", "failed"]]⟩, "high"),
    (⟨[["port", "scan"], ["scanning"], ["reconnaissance"]]⟩, "high"),
    (⟨[["ddos"], ["flood"], ["syn", "attack"]]⟩, "critical"),
    (⟨[["privilege", "escalation"], ["sudo"], ["root", "access"]]⟩, "critical"),
    (⟨[["data", "exfil"], ["data", "transfer", "unusual"], ["suspicious", "download"]]⟩, "critical"),
    (⟨[["sql", "injection"], ["injection"], ["xss"], ["cross", "site"]]⟩, "high"),
    (⟨[["firewall", "block"], ["blocked"], ["denied"]]⟩, "medium") ]

/-- Whether one detector pair fires on a log: the source tests the pattern
against both the message and the event-type field. -/
def patternMatches (log : Log) (pr : Pattern × String) : Bool :=
  pr.1.test log.message || pr.1.test log.eventType

/-- The pattern loop of `detectAnomalies`: state is
(alertTriggered, detectedSeverity), starting at (false, "info"); the loop
breaks at the first matching pattern, and the severity-merge condition is
`severity === "critical" || (severity === "high" && detectedSeverity !== "critical")`. -/
def patternLoop (log : Log) :
    List (Pattern × String) → Bool × String → Bool × String
  | [], st => st
  | (p, severity) :: rest, (alertTriggered, detectedSeverity) =>
    if p.test log.message || p.test log.eventType then
      (true,
        if severity = "critical" ∨ (severity = "high" ∧ detectedSeverity ≠ "critical")
        then severity else detectedSeverity)
    else patternLoop log rest (alertTriggered, detectedSeverity)

/-- The result of `analyzeLogForAnomalies` (server/openai.ts): the external
remote scorer's verdict, with confidence modelled as a rational. -/
structure AIResult where
  isAnomalous : Bool
  confidence : ℚ
deriving Repr, DecidableEq

/-- The alert fields passed to `createAlert` at the end of
`detectAnomalies`. -/
def anomalyAlert (log : Log) (severity : String) : InsertAlert :=
  { severity := severity
    title := "Anomaly Detected: " ++ log.eventType
    description := log.message
    source := log.source
    ipAddress := jsFalsyToNone log.ipAddress
    status := "active" }

/-- Result of one run of `detectAnomalies`: whether the remote scorer was
consulted and the alert, if any, handed to `createAlert`. -/
structure DetectResult where
  scorerConsulted : Bool
  alert : Option InsertAlert
deriving Repr, DecidableEq

/-- `DatabaseStorage.detectAnomalies`: the pattern loop, then — for error or
critical level only — the remote-scorer call, whose anomalous verdict with
confidence strictly above 0.6 forces alertTriggered and severity
"critical". The scorer's answer enters as the parameter `ai`. -/
def detectAnomalies (ai : AIResult) (log : Log) : DetectResult :=
  let st := patternLoop log patterns (false, "info")
  let consult : Bool := log.level = "error" ∨ log.level = "critical"
  let st2 :=
    if consult then
      if ai.isAnomalous = true ∧ ai.confidence > 6/10 then (true, "critical") else st
    else st
  { scorerConsulted := consult
    alert := if st2.1 then some (anomalyAlert log st2.2) else none }

/-- The surrounding environment of one detection pass: the outcome of
`getAlertingRules()` (an `Except.error` models the promise rejecting), the
outcome of `JSON.parse` on each stored condition string (`none` models a
throw, caught per rule), whether each alert-store insert succeeds, the
regex library, and the remote scorer's verdict. -/
structure PipelineEnv where
  rulesResult : Except String (List AlertingRule)
  parseConditions : String → Option (List RuleCondition)
  createAlertOk : InsertAlert → Bool
  re : String → Option (String → Bool)
  ai : AIResult

/-- `DatabaseStorage.evaluateRulesForLog`: loads the rules (a load failure
rejects the whole call — it happens before the per-rule try/catch), filters
to enabled ones and, per rule, parses the condition JSON, AND-combines the
conditions and creates an alert on match; any per-rule error (parse throw,
alert-store write failure) is caught and that rule is skipped. Returns the
alerts actually persisted. -/
def evaluateRulesForLog (env : PipelineEnv) (log : Log) :
    Except String (List InsertAlert) :=
  match env.rulesResult with
  | Except.error e => Except.error e
  | Except.ok rules =>
    let enabledRules := rules.filter (fun r => r.enabled)
    Except.ok (enabledRules.filterMap (fun rule =>
      match env.parseConditions rule.condition with
      | none => none
      | some conditions =>
        let context := contextOfLog log
        if evaluateConditions env.re conditions context then
          let alert := ruleAlert rule log
          if env.createAlertOk alert then some alert else none
        else none))

/-- Observable side effects of the ingestion flow. -/
inductive Effect where
  | storeLog (log : Log)
  | broadcastLogCreated (log : Log)
  | scorerCall (log : Log)
  | createAlert (a : InsertAlert)
  | broadcastAlertCreated (a : InsertAlert)
deriving Repr, DecidableEq

/-- Effect trace of the detached `detectAnomalies(log)` task spawned by
`createLog` (not awaited: `catch(err => console.error(...))`). -/
def detectAnomaliesEffects (ai : AIResult) (log : Log) : List Effect :=
  let r := detectAnomalies ai log
  (if r.scorerConsulted then [Effect.scorerCall log] else []) ++
  (match r.alert with
   | some a => [Effect.createAlert a]
   | none => [])

/-- Effect trace of the awaited `evaluateRulesForLog(log)` call: one
`createAlert` per persisted rule alert; an empty trace when rule loading
failed. -/
def evaluateRulesEffects (env : PipelineEnv) (log : Log) : List Effect :=
  match evaluateRulesForLog env log with
  | Except.error _ => []
  | Except.ok alerts => alerts.map Effect.createAlert

/-- All effects the detection pipeline produces for one ingested log:
heuristic-classifier effects followed by rule-engine effects. -/
def pipelineEffects (env : PipelineEnv) (log : Log) : List Effect :=
  detectAnomaliesEffects env.ai log ++ evaluateRulesEffects env log

/-- HTTP response of the POST /api/logs handler. -/
inductive Response where
  | created201 (log : Log)
  | badRequest400
deriving Repr, DecidableEq

/-- Outcome of one run of the POST /api/logs handler: the response, the
effects that have completed before the response is sent (the awaited
chain), and the effects of the detached `detectAnomalies` task, which run
concurrently with — possibly after — the response. -/
structure HandlerOutcome where
  response : Response
  awaitedEffects : List Effect
  detachedEffects : List Effect
deriving Repr, DecidableEq

/-- The POST /api/logs handler (server/routes.ts lines 144-155), assuming
body validation and the log insert succeed and `log` is the stored row:
`await createLog` stores the log and spawns `detectAnomalies` without
awaiting it; then `broadcastLogCreated(log)`; then
`await evaluateRulesForLog(log)` — inside the handler's try, so its
rejection is caught and answered with 400; then `res.status(201)`. -/
def postLogsHandler (env : PipelineEnv) (log : Log) : HandlerOutcome :=
  match evaluateRulesForLog env log with
  | Except.error _ =>
    { response := Response.badRequest400
      awaitedEffects := [Effect.storeLog log, Effect.broadcastLogCreated log]
      detachedEffects := detectAnomaliesEffects env.ai log }
  | Except.ok alerts =>
    { response := Response.created201 log
      awaitedEffects :=
        [Effect.storeLog log, Effect.broadcastLogCreated log] ++
          alerts.map Effect.createAlert
      detachedEffects := detectAnomaliesEffects env.ai log }

/-- Connection readiness states of the `ws` library. -/
inductive ReadyState where
  | CONNECTING
  | OPEN
  | CLOSING
  | CLOSED
deriving Repr, DecidableEq

/-- One registered subscriber of the log stream: its generated id and the
observable state of its websocket. -/
structure Subscriber where
  id : String
  readyState : ReadyState
deriving Repr, DecidableEq

/-- The `LogStreamManager` registry (server/websocket.ts): whether
`initialize` has set `wsServer`, and the subscriber map's entries. -/
structure LogStreamManager where
  initialized : Bool
  subscribers : List Subscriber
deriving Repr, DecidableEq

/-- The shared body of `broadcastLogCreated` / `broadcastAlertCreated`:
returns the registry afterwards and the ids written to. The source iterates
the map and calls `ws.send(message)` exactly on subscribers whose
`readyState` is OPEN; it never mutates the map. -/
def broadcastMessage (mgr : LogStreamManager) : LogStreamManager × List String :=
  if mgr.initialized = false then (mgr, [])
  else
    (mgr, mgr.subscribers.filterMap (fun s =>
      if s.readyState = ReadyState.OPEN then some s.id else none))

/-- The `close` / `error` event handler installed in
`LogStreamManager.initialize`: deletes the subscriber's id from the map. -/
def onSubscriberClose (mgr : LogStreamManager) (id : String) : LogStreamManager :=
  { mgr with subscribers := mgr.subscribers.filter (fun s => s.id ≠ id) }

/-- The severity the pattern loop actually records for a first-matching
detector: its own severity for critical/high detectors, the initial
"info" otherwise, because the merge condition only fires for those two. -/
def emittedSeverity (sev : String) : String :=
  if sev = "critical" ∨ sev = "high" then sev else "info"

/-! Concrete sample data, used by the counterexamples and witnesses. -/

/-- A benign log event (matches no detector pattern, level below error). -/
def sampleLog : Log :=
  { id := "log-1", level := "info", source := "network",
    ipAddress := some "10.0.0.45", eventType := "high_bandwidth",
    message := "Unusual bandwidth spike detected", metadata := none }

/-- A log event matching the first (authentication-failure) detector. -/
def failedLoginLog : Log :=
  { id := "log-2", level := "warning", source := "security", ipAddress := none,
    eventType := "failed_login", message := "Failed login attempt detected",
    metadata := none }

/-- A log event matching only the firewall-denial (seventh, medium) detector. -/
def blockedLog : Log :=
  { id := "log-3", level := "info", source := "network",
    ipAddress := some "203.0.113.42", eventType := "firewall",
    message := "Firewall blocked connection from external host",
    metadata := none }

/-- A critical-level log event (triggers the remote-scorer consultation). -/
def criticalLog : Log :=
  { id := "log-4", level := "critical", source := "security",
    ipAddress := some "192.0.2.156", eventType := "unauthorized_access",
    message := "Unauthorized access attempt to admin panel", metadata := none }

/-- An enabled rule whose stored condition is the empty JSON array — exactly
what the client's rule form submits by default. -/
def emptyCondRule : AlertingRule :=
  { id := "rule-1", name := "Empty rule", description := none,
    condition := "[]", severity := "high", enabled := true }

/-- A JSON-parse model that maps the string "[]" to the empty condition
list. -/
def parseEmptyOnly : String → Option (List RuleCondition) :=
  fun s => if s = "[]" then some [] else none

/-- Environment with the single empty-condition rule and a healthy store. -/
def envEmptyRule : PipelineEnv :=
  { rulesResult := Except.ok [emptyCondRule]
    parseConditions := parseEmptyOnly
    createAlertOk := fun _ => true
    re := fun _ => none
    ai := { isAnomalous := false, confidence := 0 } }

/-- Environment with no alerting rules and a healthy store. -/
def envNoRules : PipelineEnv :=
  { rulesResult := Except.ok []
    parseConditions := fun _ => none
    createAlertOk := fun _ => true
    re := fun _ => none
    ai := { isAnomalous := false, confidence := 0 } }

/-- Environment in which loading the alerting rules fails (the
`getAlertingRules()` promise rejects). -/
def envRulesDown : PipelineEnv :=
  { rulesResult := Except.error "alerting_rules query failed"
    parseConditions := fun _ => none
    createAlertOk := fun _ => true
    re := fun _ => none
    ai := { isAnomalous := false, confidence := 0 } }

/-- An already-resolved alert row. -/
def resolvedAlert : Alert :=
  { id := "alert-1", severity := "high", title := "Unusual Data Exfiltration",
    description := "Large volume of data transferred", source := "network",
    ipAddress := some "198.51.100.99", status := "resolved",
    acknowledgedAt := none, resolvedAt := some 100 }

/-- A registry holding one OPEN and one CLOSED subscriber. -/
def mgrWithClosed : LogStreamManager :=
  { initialized := true
    subscribers :=
      [ { id := "s1", readyState := ReadyState.OPEN },
        { id := "s2", readyState := ReadyState.CLOSED } ] }

/-- An equals-condition on the severity field. -/
def eqCond : RuleCondition :=
  { type := "severity", operator := "equals", value := CondValue.str "critical" }

/-- A condition whose field selector is not one of the five recognized
ones. -/
def bogusCond : RuleCondition :=
  { type := "hostname", operator := "equals", value := CondValue.str "x" }

/-- The evaluation context of the critical sample log. -/
def sampleContext : RuleEvaluationContext := contextOfLog criticalLog

theorem patternLoop_eq_find (log : Log) (ps : List (Pattern × String)) :
    patternLoop log ps (false, "info") =
      match ps.find? (patternMatches log) with
      | none => (false, "info")
      | some pr => (true, emittedSeverity pr.2) := by
  induction ps with
  | nil => rfl
  | cons head rest ih =>
    obtain ⟨p, sev⟩ := head
    by_cases h : (p.test log.message || p.test log.eventType) = true
    · have hm : patternMatches log (p, sev) = true := h
      have hne : ("info" : String) ≠ "critical" := by decide
      simp [patternLoop, h, List.find?_cons_of_pos _ hm, emittedSeverity, hne]
    · have hm : ¬patternMatches log (p, sev) = true := h
      simp only [patternLoop, if_neg h, List.find?_cons_of_neg _ hm]
      exact ih

theorem detectAnomalies_alert_of_no_escalation (ai : AIResult) (log : Log)
    (h : (log.level = "error" ∨ log.level = "critical") →
      ¬(ai.isAnomalous = true ∧ ai.confidence > 6/10)) :
    (detectAnomalies ai log).alert =
      (patterns.find? (patternMatches log)).map
        (fun pr => anomalyAlert log (emittedSeverity pr.2)) := by
  by_cases hc : log.level = "error" ∨ log.level = "critical"
  · simp only [detectAnomalies, decide_eq_true_eq, if_pos hc, if_neg (h hc),
      patternLoop_eq_find]
    cases hf : patterns.find? (patternMatches log) <;> simp
  · simp only [detectAnomalies, decide_eq_true_eq, if_neg hc, patternLoop_eq_find]
    cases hf : patterns.find? (patternMatches log) <;> simp

theorem detectAnomalies_alert_eq (ai : AIResult) (log : Log) :
    (detectAnomalies ai log).alert = none ∨
    ∃ sev, (detectAnomalies ai log).alert = some (anomalyAlert log sev) := by
  simp only [detectAnomalies]
  repeat' split
  all_goals first
    | exact Or.inl rfl
    | exact Or.inr ⟨_, rfl⟩

theorem detectAnomalies_alert_status (ai : AIResult) (log : Log) (a : InsertAlert)
    (h : (detectAnomalies ai log).alert = some a) : a.status = "active" := by
  rcases detectAnomalies_alert_eq ai log with hn | ⟨sev, hs⟩
  · rw [hn] at h
    exact absurd h (by simp)
  · rw [hs] at h
    obtain rfl := Option.some.inj h
    rfl

theorem evaluateRulesForLog_status (env : PipelineEnv) (log : Log)
    (alerts : List InsertAlert)
    (h : evaluateRulesForLog env log = Except.ok alerts) :
    ∀ a ∈ alerts, a.status = "active" := by
  unfold evaluateRulesForLog at h
  cases hr : env.rulesResult with
  | error e => rw [hr] at h; exact absurd h (by simp)
  | ok rules =>
    rw [hr] at h
    obtain rfl := Except.ok.inj h
    intro a ha
    obtain ⟨rule, _, hres⟩ := List.mem_filterMap.mp ha
    dsimp only at hres
    split at hres
    · exact absurd hres (by simp)
    · split at hres
      · split at hres
        · obtain rfl := Option.some.inj hres
          rfl
        · exact absurd hres (by simp)
      · exact absurd hres (by simp)

theorem mem_detectAnomaliesEffects (ai : AIResult) (log : Log) (e : Effect)
    (he : e ∈ detectAnomaliesEffects ai log) :
    e = Effect.scorerCall log ∨
    ∃ a, e = Effect.createAlert a ∧ (detectAnomalies ai log).alert = some a := by
  unfold detectAnomaliesEffects at he
  rcases List.mem_append.mp he with h | h
  · left
    split at h <;> simp_all
  · right
    cases hm : (detectAnomalies ai log).alert with
    | none => rw [hm] at h; exact absurd h (by simp)
    | some a =>
      rw [hm] at h
      obtain rfl := List.mem_singleton.mp h
      exact ⟨a, rfl, rfl⟩

theorem mem_pipelineEffects (env : PipelineEnv) (log : Log) (e : Effect)
    (he : e ∈ pipelineEffects env log) :
    e = Effect.scorerCall log ∨
    ∃ a, e = Effect.createAlert a ∧ a.status = "active" := by
  rcases List.mem_append.mp he with h | h
  · rcases mem_detectAnomaliesEffects env.ai log e h with h1 | ⟨a, rfl, ha⟩
    · exact Or.inl h1
    · exact Or.inr ⟨a, rfl, detectAnomalies_alert_status env.ai log a ha⟩
  · unfold evaluateRulesEffects at h
    cases hr : evaluateRulesForLog env log with
    | error err => rw [hr] at h; exact absurd h (by simp)
    | ok alerts =>
      rw [hr] at h
      obtain ⟨a, ha, rfl⟩ := List.mem_map.mp h
      exact Or.inr ⟨a, rfl, evaluateRulesForLog_status env log alerts hr a ha⟩

/-! Claim theorems. -/

/-- C9 (confirmed): for an `equals` condition, `evaluateCondition` returns
true exactly when the selected context field is present, non-empty and
string-equal to a string comparison value; it returns false when the field
is absent or the empty string, and false for a non-string (array) operand
(covered by the iff, since then `cond.value` is no `CondValue.str`). -/
theorem equals_operator_spec (re : String → Option (String → Bool))
    (cond : RuleCondition) (context : RuleEvaluationContext)
    (hop : cond.operator = "equals") :
    ((evaluateCondition re cond context = true) ↔
      ∃ v, getValue cond context = some v ∧ v ≠ "" ∧
        cond.value = CondValue.str v) ∧
    (getValue cond context = none → evaluateCondition re cond context = false) ∧
    (getValue cond context = some "" →
      evaluateCondition re cond context = false) := by
  unfold evaluateCondition
  cases hv : getValue cond context with
  | none => simp
  | some v =>
    by_cases hv0 : v = ""
    · subst hv0
      simp
    · rw [hop]
      cases hcv : cond.value with
      | str s => simp [hv0, eq_comm]
      | arr l => simp [hv0]

/-- C9 witness: a severity-equals condition evaluated on the critical
sample log. -/
theorem equals_operator_spec_witness :
    evaluateCondition (fun _ => none) eqCond sampleContext = true :=
  (equals_operator_spec (fun _ => none) eqCond sampleContext rfl).1.mpr
    ⟨"critical", rfl, by decide, rfl⟩

/-- C10 (confirmed): a condition whose field selector is outside
ip/eventType/severity/pattern/source, or whose operator is outside
equals/contains/matches/in, evaluates to false (no exception path exists in
the embedding: evaluation is total), and any condition list containing it
AND-evaluates to false, so the enclosing rule cannot match. -/
theorem unknown_condition_fails_closed (re : String → Option (String → Bool))
    (cond : RuleCondition) (context : RuleEvaluationContext)
    (h : cond.type ∉ (["ip", "eventType", "severity", "pattern", "source"] : List String) ∨
      cond.operator ∉ (["equals", "contains", "matches", "in"] : List String)) :
    evaluateCondition re cond context = false ∧
    ∀ conds, cond ∈ conds →
      evaluateConditions re conds context = false := by
  have hfalse : evaluateCondition re cond context = false := by
    rcases h with ht | hop
    · have h1 : cond.type ≠ "ip" := fun hx => ht (by simp [hx])
      have h2 : cond.type ≠ "eventType" := fun hx => ht (by simp [hx])
      have h3 : cond.type ≠ "severity" := fun hx => ht (by simp [hx])
      have h4 : cond.type ≠ "pattern" := fun hx => ht (by simp [hx])
      have h5 : cond.type ≠ "source" := fun hx => ht (by simp [hx])
      unfold evaluateCondition getValue
      simp [h1, h2, h3, h4, h5]
    · have h1 : cond.operator ≠ "equals" := fun hx => hop (by simp [hx])
      have h2 : cond.operator ≠ "contains" := fun hx => hop (by simp [hx])
      have h3 : cond.operator ≠ "matches" := fun hx => hop (by simp [hx])
      have h4 : cond.operator ≠ "in" := fun hx => hop (by simp [hx])
      unfold evaluateCondition
      cases hv : getValue cond context with
      | none => rfl
      | some v =>
        by_cases hv0 : v = "" <;> simp [hv0, h1, h2, h3, h4]
  refine ⟨hfalse, fun conds hmem => ?_⟩
  unfold evaluateConditions
  cases hall : conds.all (fun c => evaluateCondition re c context) with
  | false => rfl
  | true =>
    exact absurd ((List.all_eq_true.mp hall) cond hmem)
      (by rw [hfalse]; decide)

/-- C10 witness: an unrecognized field selector fails closed and sinks its
rule's conjunction. -/
theorem unknown_condition_fails_closed_witness :
    evaluateCondition (fun _ => none) bogusCond sampleContext = false ∧
    evaluateConditions (fun _ => none) [eqCond, bogusCond] sampleContext = false :=
  ⟨(unknown_condition_fails_closed (fun _ => none) bogusCond sampleContext
      (Or.inl (by decide))).1,
   (unknown_condition_fails_closed (fun _ => none) bogusCond sampleContext
      (Or.inl (by decide))).2 [eqCond, bogusCond] (by decide)⟩

/-- C1 counterexample: an enabled rule whose stored condition parses to the
empty list does match — `evaluateRulesForLog` creates its alert for a log
event (the JavaScript `every` is vacuously true on the empty array), so
the rule is not treated as non-matching. -/
theorem empty_condition_rule_counterexample :
    envEmptyRule.parseConditions emptyCondRule.condition = some [] ∧
    evaluateRulesForLog envEmptyRule sampleLog =
      Except.ok [ruleAlert emptyCondRule sampleLog] :=
  ⟨rfl, rfl⟩

/-- C1 amended: for every alerting rule whose parsed condition list is
empty, rule evaluation treats the rule as matching (the AND over zero
conditions is vacuously true): for every log event, the rule's alert is
included in the output whenever the rule is enabled, is loaded, and the
alert-store write succeeds. -/
theorem empty_condition_rule_matches (env : PipelineEnv) (log : Log)
    (rule : AlertingRule) (rules : List AlertingRule)
    (hr : env.rulesResult = Except.ok rules) (hm : rule ∈ rules)
    (he : rule.enabled = true)
    (hp : env.parseConditions rule.condition = some [])
    (hc : env.createAlertOk (ruleAlert rule log) = true) :
    ∃ alerts, evaluateRulesForLog env log = Except.ok alerts ∧
      ruleAlert rule log ∈ alerts := by
  unfold evaluateRulesForLog
  rw [hr]
  refine ⟨_, rfl, ?_⟩
  apply List.mem_filterMap.mpr
  refine ⟨rule, List.mem_filter.mpr ⟨hm, he⟩, ?_⟩
  dsimp only
  rw [hp]
  simp [evaluateConditions, hc]

/-- C1 witness: the empty-condition rule's alert is in the output for the
benign sample log. -/
theorem empty_condition_rule_matches_witness :
    ∃ alerts, evaluateRulesForLog envEmptyRule sampleLog = Except.ok alerts ∧
      ruleAlert emptyCondRule sampleLog ∈ alerts :=
  empty_condition_rule_matches envEmptyRule sampleLog emptyCondRule
    [emptyCondRule] rfl (by decide) rfl rfl rfl

/-- C2 counterexample: a heuristic-matched log makes the pipeline persist an
alert (status "active"), yet the whole effect trace of the detection
pipeline is that single store write — it contains no
`alert_created` broadcast, so the pipeline does not invoke the subscriber
registry for the new alert. -/
theorem pipeline_no_broadcast_counterexample :
    pipelineEffects envNoRules failedLoginLog =
      [Effect.createAlert (anomalyAlert failedLoginLog "high")] := rfl

/-- C2 amended: every alert the detection pipeline persists (heuristic or
rule match) has status "active", but the pipeline performs no
`alert_created` broadcast — no broadcast effect ever appears in its
trace. -/
theorem pipeline_alerts_active_not_broadcast (env : PipelineEnv) (log : Log) :
    (∀ a, Effect.createAlert a ∈ pipelineEffects env log →
      a.status = "active") ∧
    (∀ a, Effect.broadcastAlertCreated a ∉ pipelineEffects env log) := by
  constructor
  · intro a ha
    rcases mem_pipelineEffects env log _ ha with h | ⟨a', heq, hst⟩
    · exact absurd h (by simp)
    · obtain rfl : a = a' := by injection heq
      exact hst
  · intro a ha
    rcases mem_pipelineEffects env log _ ha with h | ⟨a', heq, _⟩
    · exact absurd h (by simp)
    · exact absurd heq (by simp)

/-- C2 witness: the heuristic alert for the failed-login log has status
"active" and no broadcast of it appears in the pipeline trace. -/
theorem pipeline_alerts_active_not_broadcast_witness :
    (anomalyAlert failedLoginLog "high").status = "active" ∧
    Effect.broadcastAlertCreated (anomalyAlert failedLoginLog "high") ∉
      pipelineEffects envNoRules failedLoginLog :=
  ⟨(pipeline_alerts_active_not_broadcast envNoRules failedLoginLog).1
      (anomalyAlert failedLoginLog "high") (by decide),
   (pipeline_alerts_active_not_broadcast envNoRules failedLoginLog).2
      (anomalyAlert failedLoginLog "high")⟩

/-- C3 counterexample: with one enabled (vacuously matching) rule, the
POST /api/logs handler's awaited chain — the effects completed before the
201 response is sent — contains a rule-engine `createAlert`; detection work
is awaited before the response, so it is not fire-and-forget. -/
theorem awaited_rule_detection_counterexample :
    (postLogsHandler envEmptyRule sampleLog).response =
      Response.created201 sampleLog ∧
    (postLogsHandler envEmptyRule sampleLog).awaitedEffects =
      [Effect.storeLog sampleLog, Effect.broadcastLogCreated sampleLog,
        Effect.createAlert (ruleAlert emptyCondRule sampleLog)] :=
  ⟨rfl, rfl⟩

/-- C3 amended: only the heuristic-classifier/remote-scorer work
(`detectAnomalies`) is fire-and-forget — it runs detached and no
remote-scorer call is ever awaited before the response — while the rule
engine (`evaluateRulesForLog`) is awaited: its created alerts sit in the
awaited chain between storage acknowledgment and the response. -/
theorem detection_partially_awaited (env : PipelineEnv) (log : Log) :
    (postLogsHandler env log).detachedEffects =
      detectAnomaliesEffects env.ai log ∧
    (∀ l, Effect.scorerCall l ∉ (postLogsHandler env log).awaitedEffects) ∧
    (∀ alerts, evaluateRulesForLog env log = Except.ok alerts →
      (postLogsHandler env log).awaitedEffects =
        [Effect.storeLog log, Effect.broadcastLogCreated log] ++
          alerts.map Effect.createAlert) := by
  unfold postLogsHandler
  cases hr : evaluateRulesForLog env log with
  | error e =>
    refine ⟨rfl, ?_, ?_⟩
    · intro l hl
      simp at hl
    · intro alerts halerts
      exact absurd halerts (by simp)
  | ok alerts0 =>
    refine ⟨rfl, ?_, ?_⟩
    · intro l hl
      simp [List.mem_append, List.mem_map] at hl
    · intro alerts halerts
      obtain rfl := Except.ok.inj halerts
      rfl

/-- C3 witness: with the empty-condition rule environment, the detached
effects are exactly the heuristic task's, no scorer call is awaited, and
the rule alert is in the awaited chain. -/
theorem detection_partially_awaited_witness :
    (postLogsHandler envEmptyRule sampleLog).detachedEffects =
      detectAnomaliesEffects envEmptyRule.ai sampleLog ∧
    Effect.scorerCall sampleLog ∉
      (postLogsHandler envEmptyRule sampleLog).awaitedEffects ∧
    (postLogsHandler envEmptyRule sampleLog).awaitedEffects =
      [Effect.storeLog sampleLog, Effect.broadcastLogCreated sampleLog] ++
        [ruleAlert emptyCondRule sampleLog].map Effect.createAlert :=
  ⟨(detection_partially_awaited envEmptyRule sampleLog).1,
   (detection_partially_awaited envEmptyRule sampleLog).2.1 sampleLog,
   (detection_partially_awaited envEmptyRule sampleLog).2.2
      [ruleAlert emptyCondRule sampleLog] rfl⟩

/-- C4 counterexample: when loading the alerting rules fails, the awaited
`evaluateRulesForLog` rejects inside the handler's try block and the
handler answers 400 — even though the log event was already durably
stored (the store effect is in the awaited chain). -/
theorem rules_load_failure_counterexample :
    (postLogsHandler envRulesDown sampleLog).response =
      Response.badRequest400 ∧
    Effect.storeLog sampleLog ∈
      (postLogsHandler envRulesDown sampleLog).awaitedEffects :=
  ⟨rfl, by decide⟩

/-- C4 amended: per-rule detection errors (unparseable conditions, failed
alert-store writes — both caught per rule) and anything in the detached
heuristic task never fail the request: whenever the rules load succeeds the
handler returns 201 for the stored log, for every parse, alert-store and
scorer behaviour. But a rules-load failure makes the handler return 400
although the log was stored. -/
theorem stored_log_response (env : PipelineEnv) (log : Log) :
    ((∃ rules, env.rulesResult = Except.ok rules) →
      (postLogsHandler env log).response = Response.created201 log) ∧
    ((∃ e, env.rulesResult = Except.error e) →
      (postLogsHandler env log).response = Response.badRequest400 ∧
      Effect.storeLog log ∈ (postLogsHandler env log).awaitedEffects) := by
  unfold postLogsHandler evaluateRulesForLog
  cases hr : env.rulesResult with
  | error e =>
    constructor
    · rintro ⟨rules, hrule⟩
      exact absurd hrule (by simp)
    · intro _
      exact ⟨rfl, by simp⟩
  | ok rules =>
    constructor
    · intro _
      rfl
    · rintro ⟨e, he⟩
      exact absurd he (by simp)

/-- C4 witness: a healthy rules load yields 201; the failed rules load
yields 400 with the log stored. -/
theorem stored_log_response_witness :
    (postLogsHandler envEmptyRule sampleLog).response =
      Response.created201 sampleLog ∧
    (postLogsHandler envRulesDown sampleLog).response =
      Response.badRequest400 ∧
    Effect.storeLog sampleLog ∈
      (postLogsHandler envRulesDown sampleLog).awaitedEffects :=
  ⟨(stored_log_response envEmptyRule sampleLog).1 ⟨[emptyCondRule], rfl⟩,
   ((stored_log_response envRulesDown sampleLog).2
      ⟨"alerting_rules query failed", rfl⟩).1,
   ((stored_log_response envRulesDown sampleLog).2
      ⟨"alerting_rules query failed", rfl⟩).2⟩

/-- C5 counterexample: a log matched first (and only) by the seventh,
firewall-denial detector — whose listed severity is "medium" — produces an
alert of severity "info", not "medium": the merge condition
`severity === "critical" || (severity === "high" && ...)` never assigns a
"medium" severity, so `detectedSeverity` keeps its initial "info". -/
theorem firewall_detector_severity_counterexample :
    (patterns.find? (patternMatches blockedLog)).map Prod.snd = some "medium" ∧
    (detectAnomalies { isAnomalous := false, confidence := 0 } blockedLog).alert =
      some (anomalyAlert blockedLog "info") :=
  ⟨rfl, rfl⟩

/-- C5 amended: the classifier stops at the first matching detector of the
fixed list, whose severities are high, high, critical, critical, critical,
high, medium in priority order; absent remote-scorer escalation the
resulting alert carries the detector's severity for the critical and high
detectors, but carries "info" for the medium (firewall-denial) detector,
because the severity-merge condition only assigns critical or high. -/
theorem first_match_severity (log : Log) (ai : AIResult)
    (h : (log.level = "error" ∨ log.level = "critical") →
      ¬(ai.isAnomalous = true ∧ ai.confidence > 6/10)) :
    (detectAnomalies ai log).alert =
      (patterns.find? (patternMatches log)).map
        (fun pr => anomalyAlert log (emittedSeverity pr.2)) ∧
    patterns.map Prod.snd =
      ["high", "high", "critical", "critical", "critical", "high", "medium"] ∧
    emittedSeverity "critical" = "critical" ∧
    emittedSeverity "high" = "high" ∧
    emittedSeverity "medium" = "info" :=
  ⟨detectAnomalies_alert_of_no_escalation ai log h, rfl, rfl, rfl, rfl⟩

/-- C5 witness: the firewall-matched log at info level, with a neutral
scorer. -/
theorem first_match_severity_witness :
    (detectAnomalies { isAnomalous := false, confidence := 0 } blockedLog).alert =
      (patterns.find? (patternMatches blockedLog)).map
        (fun pr => anomalyAlert blockedLog (emittedSeverity pr.2)) :=
  (first_match_severity blockedLog { isAnomalous := false, confidence := 0 }
    (fun hc => absurd hc (by decide))).1

/-- C6 counterexample: acknowledging an already-resolved alert moves its
status backward from "resolved" to "acknowledged" — the update is
unconditional, so the lifecycle does not only advance forward. -/
theorem backward_transition_counterexample :
    resolvedAlert.status = "resolved" ∧
    (acknowledgeAlertSet resolvedAlert 101).status = "acknowledged" ∧
    statusRank (acknowledgeAlertSet resolvedAlert 101).status <
      statusRank resolvedAlert.status :=
  ⟨rfl, rfl, by decide⟩

/-- C6 amended: every alert the detection pipeline creates has status
"active"; but the acknowledge and resolve operations set their target
status unconditionally — whatever the current status — so a backward
transition (resolved to acknowledged) is possible and forward-only
monotonicity is not enforced. -/
theorem alert_status_lifecycle (env : PipelineEnv) (log : Log) :
    (∀ a, Effect.createAlert a ∈ pipelineEffects env log →
      a.status = "active") ∧
    (∀ a now, (acknowledgeAlertSet a now).status = "acknowledged" ∧
      (resolveAlertSet a now).status = "resolved") := by
  constructor
  · intro a ha
    rcases mem_pipelineEffects env log _ ha with h | ⟨a', heq, hst⟩
    · exact absurd h (by simp)
    · obtain rfl : a = a' := by injection heq
      exact hst
  · intro a now
    exact ⟨rfl, rfl⟩

/-- C6 witness: the heuristic alert is created "active"; acknowledge and
resolve overwrite the resolved alert's status unconditionally. -/
theorem alert_status_lifecycle_witness :
    (anomalyAlert failedLoginLog "high").status = "active" ∧
    (acknowledgeAlertSet resolvedAlert 101).status = "acknowledged" ∧
    (resolveAlertSet resolvedAlert 101).status = "resolved" :=
  ⟨(alert_status_lifecycle envNoRules failedLoginLog).1
      (anomalyAlert failedLoginLog "high") (by decide),
   ((alert_status_lifecycle envNoRules failedLoginLog).2 resolvedAlert 101).1,
   ((alert_status_lifecycle envNoRules failedLoginLog).2 resolvedAlert 101).2⟩

/-- C7 counterexample: broadcasting over a registry with one OPEN and one
CLOSED subscriber writes only to the OPEN one, but the CLOSED subscriber is
not evicted: the registry after the broadcast still contains it,
unchanged. -/
theorem closed_subscriber_not_evicted_counterexample :
    (broadcastMessage mgrWithClosed).2 = ["s1"] ∧
    (broadcastMessage mgrWithClosed).1 = mgrWithClosed ∧
    { id := "s2", readyState := ReadyState.CLOSED } ∈
      (broadcastMessage mgrWithClosed).1.subscribers :=
  ⟨rfl, rfl, by decide⟩

/-- C7 amended: broadcast writes the message to exactly the subscribers in
the OPEN state at write time; a not-OPEN subscriber receives nothing and no
error propagates, but it is not evicted — broadcast leaves the registry
unchanged; eviction happens only in the connection close/error handler,
which removes exactly that subscriber id. -/
theorem broadcast_open_only_no_evict (mgr : LogStreamManager)
    (hin : mgr.initialized = true) :
    (broadcastMessage mgr).1 = mgr ∧
    (∀ s ∈ mgr.subscribers, s.readyState = ReadyState.OPEN →
      s.id ∈ (broadcastMessage mgr).2) ∧
    (∀ i ∈ (broadcastMessage mgr).2,
      ∃ s ∈ mgr.subscribers, s.readyState = ReadyState.OPEN ∧ s.id = i) ∧
    (∀ id s, s ∈ (onSubscriberClose mgr id).subscribers ↔
      (s ∈ mgr.subscribers ∧ s.id ≠ id)) := by
  have hnot : ¬(mgr.initialized = false) := by rw [hin]; decide
  refine ⟨?_, ?_, ?_, ?_⟩
  · simp [broadcastMessage, hnot]
  · intro s hs hopen
    simp only [broadcastMessage, if_neg hnot]
    exact List.mem_filterMap.mpr ⟨s, hs, by rw [if_pos hopen]⟩
  · intro i hi
    simp only [broadcastMessage, if_neg hnot] at hi
    obtain ⟨s, hs, hsome⟩ := List.mem_filterMap.mp hi
    refine ⟨s, hs, ?_⟩
    by_cases hopen : s.readyState = ReadyState.OPEN
    · rw [if_pos hopen] at hsome
      exact ⟨hopen, Option.some.inj hsome⟩
    · rw [if_neg hopen] at hsome
      exact absurd hsome (by simp)
  · intro id s
    constructor
    · intro hs
      have := List.mem_filter.mp hs
      exact ⟨this.1, by simpa using this.2⟩
    · intro ⟨hs, hne⟩
      exact List.mem_filter.mpr ⟨hs, by simpa using hne⟩

/-- C7 witness: on the OPEN/CLOSED registry, the registry is unchanged and
the OPEN subscriber receives the write. -/
theorem broadcast_open_only_no_evict_witness :
    (broadcastMessage mgrWithClosed).1 = mgrWithClosed ∧
    "s1" ∈ (broadcastMessage mgrWithClosed).2 :=
  ⟨(broadcast_open_only_no_evict mgrWithClosed rfl).1,
   (broadcast_open_only_no_evict mgrWithClosed rfl).2.1
      { id := "s1", readyState := ReadyState.OPEN } (by decide) rfl⟩

/-- C8 (confirmed): the remote scorer is consulted exactly for error- or
critical-level events; an anomalous verdict with confidence strictly above
0.6 forces the resulting alert to severity "critical" regardless of the
pattern-match outcome; and a confidence of 0.6 or below never escalates —
the outcome equals the outcome under a neutral scorer. -/
theorem remote_scorer_escalation (ai : AIResult) (log : Log) :
    ((detectAnomalies ai log).scorerConsulted = true ↔
      (log.level = "error" ∨ log.level = "critical")) ∧
    ((log.level = "error" ∨ log.level = "critical") → ai.isAnomalous = true →
      ai.confidence > 6/10 →
      (detectAnomalies ai log).alert = some (anomalyAlert log "critical")) ∧
    (ai.confidence ≤ 6/10 →
      (detectAnomalies ai log).alert =
        (detectAnomalies { isAnomalous := false, confidence := 0 } log).alert) := by
  refine ⟨?_, ?_, ?_⟩
  · simp [detectAnomalies]
  · intro hc han hconf
    simp [detectAnomalies, hc, han, hconf]
  · intro hconf
    have hne : ¬(ai.isAnomalous = true ∧ ai.confidence > 6/10) := by
      rintro ⟨-, hgt⟩
      exact absurd hgt (not_lt.mpr hconf)
    by_cases hc : log.level = "error" ∨ log.level = "critical"
    · simp [detectAnomalies, hc, hne]
    · simp [detectAnomalies, hc]

/-- C8 witness: on the critical log, a 0.9-confidence anomalous verdict
yields a critical alert, and a 0.5-confidence verdict changes nothing
relative to a neutral scorer. -/
theorem remote_scorer_escalation_witness :
    (detectAnomalies { isAnomalous := true, confidence := 9/10 } criticalLog).alert =
      some (anomalyAlert criticalLog "critical") ∧
    (detectAnomalies { isAnomalous := true, confidence := 1/2 } criticalLog).alert =
      (detectAnomalies { isAnomalous := false, confidence := 0 } criticalLog).alert :=
  ⟨(remote_scorer_escalation { isAnomalous := true, confidence := 9/10 }
      criticalLog).2.1 (Or.inr rfl) rfl (by norm_num),
   (remote_scorer_escalation { isAnomalous := true, confidence := 1/2 }
      criticalLog).2.2 (by norm_num)⟩
